import Mathlib

/-!
Shallow embedding of the SpyText core (visibility classification, risk
aggregation, text sanitization) and proofs of its specified properties.

Source files embedded:
- src/models/text_span.py        (TextSpan data model)
- src/detect/visibility_analyzer.py  (VisibilityAnalyzer)
- src/detect/risk_aggregator.py  (RiskAggregator)
- src/sanitize/text_sanitizer.py (TextSanitizer)

Floating-point color math (calculate_contrast_ratio, a leaf module) is
abstracted as a parameter `cr : RGB → RGB → ℚ`: every theorem about the
analyzer holds for an arbitrary contrast function, so it holds in
particular for the WCAG one. Python regular-expression search is likewise
abstracted as `String → Option String` (the optional `match.group(0)`).
-/

namespace SpyText

/-- RGB color triple (0-255 per channel), as in the color fields of TextSpan. -/
abbrev RGB := ℕ × ℕ × ℕ

/-- Enum `VisibilityStatus` from src/detect/visibility_analyzer.py. -/
inductive VisibilityStatus where
  | VISIBLE
  | SUSPICIOUS
  | INVISIBLE
  | UNKNOWN
deriving DecidableEq, Repr

/-- Enum `RiskLevel` from src/detect/risk_aggregator.py. -/
inductive RiskLevel where
  | SAFE
  | LOW
  | MEDIUM
  | HIGH
  | CRITICAL
deriving DecidableEq, Repr

/-- Enum `SanitizationStrategy` from src/sanitize/text_sanitizer.py. -/
inductive SanitizationStrategy where
  | STRIP
  | FLAG
  | PRESERVE
deriving DecidableEq, Repr

/-- Dataclass `TextSpan` from src/models/text_span.py. `bbox` is (x0, y0, x1, y1). -/
structure TextSpan where
  text : String
  page_number : ℤ
  bbox : ℚ × ℚ × ℚ × ℚ
  font_size : Option ℚ
  font_color : Option RGB
  background_color : Option RGB
  visibility_status : Option VisibilityStatus
  contrast_ratio : Option ℚ
deriving DecidableEq, Repr

/-- bbox x0 component. -/
def TextSpan.x0 (s : TextSpan) : ℚ := s.bbox.1
/-- bbox y0 component. -/
def TextSpan.y0 (s : TextSpan) : ℚ := s.bbox.2.1
/-- bbox x1 component. -/
def TextSpan.x1 (s : TextSpan) : ℚ := s.bbox.2.2.1
/-- bbox y1 component. -/
def TextSpan.y1 (s : TextSpan) : ℚ := s.bbox.2.2.2

/-- Configuration of VisibilityAnalyzer (resolved values of
visibility.contrast.*, visibility.font_size.*, visibility.bbox.* with the
defaults from `VisibilityAnalyzer.__init__`). -/
structure VisibilityConfig where
  min_contrast : ℚ
  suspicious_contrast : ℚ
  invisible_contrast : ℚ
  min_readable_size : ℚ
  suspicious_size : ℚ
  invisible_size : ℚ
  check_off_screen : Bool
  check_zero_area : Bool
deriving DecidableEq, Repr

/-- The default visibility configuration: min_ratio 4.5, suspicious_ratio
3.0, invisible_ratio 1.5, min_readable 8.0, suspicious_size 4.0,
invisible_size 1.0, both bbox checks on. -/
def defaultVisibilityConfig : VisibilityConfig :=
  ⟨9/2, 3, 3/2, 8, 4, 1, true, true⟩

namespace VisibilityAnalyzer

/-- Method `VisibilityAnalyzer._has_required_metadata`: both colors present. -/
def has_required_metadata (span : TextSpan) : Bool :=
  span.font_color.isSome && span.background_color.isSome

/-- Method `VisibilityAnalyzer._check_contrast`: classify by contrast ratio of the
colors of the span. `cr` abstracts `calculate_contrast_ratio`. -/
def check_contrast (cr : RGB → RGB → ℚ) (cfg : VisibilityConfig)
    (span : TextSpan) : VisibilityStatus :=
  match span.font_color, span.background_color with
  | some fg, some bg =>
    let contrast := cr fg bg
    if contrast < cfg.invisible_contrast then .INVISIBLE
    else if contrast < cfg.suspicious_contrast then .SUSPICIOUS
    else if contrast < cfg.min_contrast then .SUSPICIOUS
    else .VISIBLE
  | _, _ => .UNKNOWN

/-- Method `VisibilityAnalyzer._check_font_size`: classify by font size; a span
without a font size is never penalized. -/
def check_font_size (cfg : VisibilityConfig) (span : TextSpan) :
    VisibilityStatus :=
  match span.font_size with
  | none => .VISIBLE
  | some size =>
    if size < cfg.invisible_size then .INVISIBLE
    else if size < cfg.suspicious_size then .SUSPICIOUS
    else if size < cfg.min_readable_size then .SUSPICIOUS
    else .VISIBLE

/-- Method `VisibilityAnalyzer._check_bounding_box`: zero-area → INVISIBLE,
fully off-page → INVISIBLE, partially off-page → SUSPICIOUS. -/
def check_bounding_box (cfg : VisibilityConfig) (span : TextSpan)
    (page_width page_height : ℚ) : VisibilityStatus :=
  if cfg.check_zero_area = true ∧
      (span.x1 - span.x0 ≤ 0 ∨ span.y1 - span.y0 ≤ 0) then .INVISIBLE
  else if cfg.check_off_screen = true ∧
      (span.x1 < 0 ∨ span.y1 < 0 ∨ span.x0 > page_width ∨
        span.y0 > page_height) then .INVISIBLE
  else if cfg.check_off_screen = true ∧
      (span.x0 < 0 ∨ span.y0 < 0 ∨ span.x1 > page_width ∨
        span.y1 > page_height) then .SUSPICIOUS
  else .VISIBLE

/-- Method `VisibilityAnalyzer.analyze`: UNKNOWN when colors are missing, else the
worst of the three sub-checks (INVISIBLE short-circuits, then SUSPICIOUS,
then VISIBLE). Page defaults in the source are 612 × 792 points. -/
def analyze (cr : RGB → RGB → ℚ) (cfg : VisibilityConfig) (span : TextSpan)
    (page_width page_height : ℚ) : VisibilityStatus :=
  if has_required_metadata span = true then
    let contrast_status := check_contrast cr cfg span
    if contrast_status = .INVISIBLE then .INVISIBLE
    else
      let size_status := check_font_size cfg span
      if size_status = .INVISIBLE then .INVISIBLE
      else
        let bbox_status := check_bounding_box cfg span page_width page_height
        if bbox_status = .INVISIBLE then .INVISIBLE
        else if contrast_status = .SUSPICIOUS ∨ size_status = .SUSPICIOUS ∨
            bbox_status = .SUSPICIOUS then .SUSPICIOUS
        else .VISIBLE
  else .UNKNOWN

end VisibilityAnalyzer

/-- Configuration of RiskAggregator (resolved values of risk.* with the
defaults from `RiskAggregator.__init__`). -/
structure RiskConfig where
  suspicious_threshold : ℕ
  invisible_threshold : ℕ
  check_llm_keywords : Bool
  check_hidden_instructions : Bool
deriving DecidableEq, Repr

/-- Default risk configuration: suspicious_span_threshold 5,
invisible_span_threshold 1, both checks on. -/
def defaultRiskConfig : RiskConfig := ⟨5, 1, true, true⟩

/-- One compiled prompt-injection pattern, abstracting a Python
`re.Pattern`: `p t` is `some (match.group 0)` when `p.search(t)` finds a
match, `none` otherwise. -/
abbrev InjectionPattern := String → Option String

/-- Dataclass `RiskReport` from src/detect/risk_aggregator.py. -/
structure RiskReport where
  risk_level : RiskLevel
  total_spans : ℕ
  visible_count : ℕ
  suspicious_count : ℕ
  invisible_count : ℕ
  unknown_count : ℕ
  prompt_injection_detected : Bool
  prompt_injection_patterns : List String
  recommendations : List String
  invisible_text_sample : List String

namespace RiskAggregator

/-- Lexicographic sort of strings, modelling Python `sorted` on `str`
(insertion sort with the total order on `String` is a stable sort). -/
def sortStrings (l : List String) : List String :=
  l.insertionSort (· ≤ ·)

/-- The matched substrings collected by the loop of
`RiskAggregator._detect_prompt_injection`: for each span (in order), each
pattern searched against the lower-cased text contributes its match. -/
def collectMatches (patterns : List InjectionPattern)
    (spans : List TextSpan) : List String :=
  (spans.map (fun s => patterns.filterMap (fun p => p s.text.toLower))).flatten

/-- Method `RiskAggregator._detect_prompt_injection`: returns the detected flag
(set non-empty) and the deduplicated, sorted list of matched substrings. -/
def detect_prompt_injection (patterns : List InjectionPattern)
    (spans : List TextSpan) : Bool × List String :=
  let detected_patterns := (collectMatches patterns spans).dedup
  (decide (0 < detected_patterns.length), sortStrings detected_patterns)

/-- Method `RiskAggregator._calculate_risk_level`: the five-way decision table,
first match wins. -/
def calculate_risk_level (cfg : RiskConfig) (invisible_count
    suspicious_count total_count : ℕ) (prompt_injection : Bool) :
    RiskLevel :=
  if prompt_injection = true ∧ invisible_count > 0 then .CRITICAL
  else if invisible_count ≥ cfg.invisible_threshold * 3 then .HIGH
  else if prompt_injection = true then .HIGH
  else if invisible_count ≥ cfg.invisible_threshold then .MEDIUM
  else if suspicious_count ≥ cfg.suspicious_threshold * 2 then .MEDIUM
  else if suspicious_count ≥ cfg.suspicious_threshold then .LOW
  else .SAFE

/-- Method `RiskAggregator._generate_recommendations`. -/
def generate_recommendations (risk_level : RiskLevel) (invisible_count
    suspicious_count : ℕ) (prompt_injection : Bool) : List String :=
  match risk_level with
  | .CRITICAL =>
    ["DO NOT process this document with LLMs",
     "Prompt injection attack detected in invisible text",
     "Manual security review required",
     "Consider reporting as malicious document"]
  | .HIGH =>
    (if prompt_injection = true then
      ["Block LLM processing - prompt injection detected",
       "Review detected patterns before proceeding"]
    else
      ["Block LLM processing - excessive invisible text",
       "Found " ++ toString invisible_count ++ " invisible text spans"]) ++
    ["Manual review strongly recommended"]
  | .MEDIUM =>
    (if invisible_count > 0 then
      ["Warn user about invisible text before LLM processing",
       "Strip " ++ toString invisible_count ++ " invisible spans from output"]
    else []) ++
    (if suspicious_count > 0 then
      ["Review " ++ toString suspicious_count ++
        " suspicious spans for legitimacy"]
    else []) ++
    ["Consider manual verification"]
  | .LOW =>
    ["Safe to process with caution",
     "Monitor " ++ toString suspicious_count ++ " suspicious spans",
     "Likely legitimate low-contrast text"]
  | .SAFE =>
    ["Safe to process with LLMs", "No suspicious content detected"]

/-- The spans scanned for injection patterns by `RiskAggregator.analyze`:
those classified INVISIBLE or SUSPICIOUS. -/
def problemSpans (spans : List TextSpan) : List TextSpan :=
  spans.filter (fun s => s.visibility_status = some .INVISIBLE ∨
    s.visibility_status = some .SUSPICIOUS)

/-- Method `RiskAggregator.analyze`: counts statuses, runs injection detection
over the INVISIBLE/SUSPICIOUS spans (when check_hidden_instructions is on),
computes the risk level and recommendations, and samples invisible text. -/
def analyze (cfg : RiskConfig) (patterns : List InjectionPattern)
    (spans : List TextSpan) : RiskReport :=
  let visible_count := (spans.filter
    (fun s => s.visibility_status = some .VISIBLE)).length
  let suspicious_count := (spans.filter
    (fun s => s.visibility_status = some .SUSPICIOUS)).length
  let invisible_count := (spans.filter
    (fun s => s.visibility_status = some .INVISIBLE)).length
  let unknown_count := (spans.filter
    (fun s => s.visibility_status = some .UNKNOWN)).length
  let injection_results :=
    if cfg.check_hidden_instructions = true then
      detect_prompt_injection patterns (problemSpans spans)
    else (false, [])
  let prompt_injection_detected := injection_results.1
  let prompt_injection_patterns := injection_results.2
  let risk_level := calculate_risk_level cfg invisible_count
    suspicious_count spans.length prompt_injection_detected
  let recommendations := generate_recommendations risk_level
    invisible_count suspicious_count prompt_injection_detected
  let invisible_spans := spans.filter
    (fun s => s.visibility_status = some .INVISIBLE)
  { risk_level := risk_level
    total_spans := spans.length
    visible_count := visible_count
    suspicious_count := suspicious_count
    invisible_count := invisible_count
    unknown_count := unknown_count
    prompt_injection_detected := prompt_injection_detected
    prompt_injection_patterns := prompt_injection_patterns
    recommendations := recommendations
    invisible_text_sample := (invisible_spans.map (·.text)).take 5 }

end RiskAggregator

/-- Configuration of TextSanitizer (resolved values of sanitization.* with
the defaults from `TextSanitizer.__init__`). -/
structure SanitizationConfig where
  default_strategy : SanitizationStrategy
  remove_invisible : Bool
  remove_suspicious : Bool
  flag_prefix : String
deriving DecidableEq, Repr

/-- Default sanitization configuration: strategy "strip", remove_invisible
true, remove_suspicious false, flag marker "[SUSPICIOUS] ". -/
def defaultSanitizationConfig : SanitizationConfig :=
  ⟨.STRIP, true, false, "[SUSPICIOUS] "⟩

/-- Dataclass `SanitizationReport` from src/sanitize/text_sanitizer.py. -/
structure SanitizationReport where
  original_span_count : ℕ
  sanitized_span_count : ℕ
  removed_count : ℕ
  flagged_count : ℕ
  strategy_used : SanitizationStrategy
  removed_text_sample : List String
  safe_text : String
deriving DecidableEq, Repr

namespace TextSanitizer

/-- The reading-order key comparison used by the call
`sorted(spans, key=lambda s: (s.page_number, s.bbox[1], s.bbox[0]))`
in `_reconstruct_text`:
lexicographic non-strict comparison of (page_number, y0, x0). -/
def spanLE (a b : TextSpan) : Prop :=
  a.page_number < b.page_number ∨
    (a.page_number = b.page_number ∧
      (a.y0 < b.y0 ∨ (a.y0 = b.y0 ∧ a.x0 ≤ b.x0)))

instance : DecidableRel spanLE := fun a b => by
  unfold spanLE; infer_instance

/-- The stable sort of spans by (page_number, y0, x0), modelling the
stable Python `sorted`; insertion sort with a non-strict total comparison keeps
equal-keyed elements in input order. -/
def sortSpans (spans : List TextSpan) : List TextSpan :=
  spans.insertionSort spanLE

/-- Method `TextSanitizer._reconstruct_text`: sort by (page, y0, x0) and join the
texts with single spaces. -/
def reconstruct_text (spans : List TextSpan) : String :=
  if spans = [] then ""
  else
    let sorted_spans := sortSpans spans
    String.intercalate " " (sorted_spans.map (·.text))

/-- The spans kept by the loop of `TextSanitizer._sanitize_strip`:
INVISIBLE spans are dropped, SUSPICIOUS spans too when remove_suspicious
is set, everything else is kept (in order). -/
def stripRetained (cfg : SanitizationConfig) (spans : List TextSpan) :
    List TextSpan :=
  spans.filter (fun s =>
    ¬ s.visibility_status = some .INVISIBLE ∧
      ¬ (cfg.remove_suspicious = true ∧
        s.visibility_status = some .SUSPICIOUS))

/-- The spans removed by the loop of `TextSanitizer._sanitize_strip`. -/
def stripRemoved (cfg : SanitizationConfig) (spans : List TextSpan) :
    List TextSpan :=
  spans.filter (fun s =>
    s.visibility_status = some .INVISIBLE ∨
      (cfg.remove_suspicious = true ∧
        s.visibility_status = some .SUSPICIOUS))

/-- Method `TextSanitizer._sanitize_strip`. -/
def sanitize_strip (cfg : SanitizationConfig) (spans : List TextSpan) :
    SanitizationReport :=
  let safe_spans := stripRetained cfg spans
  let removed_spans := stripRemoved cfg spans
  { original_span_count := spans.length
    sanitized_span_count := safe_spans.length
    removed_count := removed_spans.length
    flagged_count := 0
    strategy_used := .STRIP
    removed_text_sample := (removed_spans.map (·.text)).take 10
    safe_text := reconstruct_text safe_spans }

/-- The (span, is_flagged) pairs built by the loop of
`TextSanitizer._sanitize_flag`: INVISIBLE spans are dropped, SUSPICIOUS
spans are paired with `true`, the rest with `false`, in input order. -/
def flagProcessed (spans : List TextSpan) : List (TextSpan × Bool) :=
  (spans.filter (fun s => ¬ s.visibility_status = some .INVISIBLE)).map
    (fun s => (s, decide (s.visibility_status = some .SUSPICIOUS)))

/-- The text parts joined by `TextSanitizer._sanitize_flag`: flagged spans
get the flag marker prepended, in input order (no sorting). -/
def flagParts (cfg : SanitizationConfig) (spans : List TextSpan) :
    List String :=
  let fp := SanitizationConfig.flag_prefix cfg
  (flagProcessed spans).map
    (fun sf => if sf.2 = true then fp ++ sf.1.text else sf.1.text)

/-- Method `TextSanitizer._sanitize_flag`. -/
def sanitize_flag (cfg : SanitizationConfig) (spans : List TextSpan) :
    SanitizationReport :=
  let processed_spans := flagProcessed spans
  let removed_spans := spans.filter
    (fun s => s.visibility_status = some .INVISIBLE)
  { original_span_count := spans.length
    sanitized_span_count := processed_spans.length
    removed_count := removed_spans.length
    flagged_count := ((spans.filter
      (fun s => ¬ s.visibility_status = some .INVISIBLE)).filter
      (fun s => s.visibility_status = some .SUSPICIOUS)).length
    strategy_used := .FLAG
    removed_text_sample := (removed_spans.map (·.text)).take 10
    safe_text := String.intercalate " " (flagParts cfg spans) }

/-- Method `TextSanitizer._sanitize_preserve`. -/
def sanitize_preserve (spans : List TextSpan) : SanitizationReport :=
  { original_span_count := spans.length
    sanitized_span_count := spans.length
    removed_count := 0
    flagged_count := 0
    strategy_used := .PRESERVE
    removed_text_sample := []
    safe_text := reconstruct_text spans }

/-- Method `TextSanitizer.sanitize`: resolve the strategy (explicit argument, else
risk-adaptive, else the configured default) and dispatch. -/
def sanitize (cfg : SanitizationConfig) (spans : List TextSpan)
    (strategy : Option SanitizationStrategy)
    (risk_level : Option RiskLevel) : SanitizationReport :=
  let strategy :=
    match strategy with
    | some s => s
    | none =>
      if risk_level = some RiskLevel.HIGH ∨
          risk_level = some RiskLevel.CRITICAL then
        SanitizationStrategy.STRIP
      else if risk_level = some RiskLevel.MEDIUM then
        SanitizationStrategy.FLAG
      else cfg.default_strategy
  match strategy with
  | .STRIP => sanitize_strip cfg spans
  | .FLAG => sanitize_flag cfg spans
  | .PRESERVE => sanitize_preserve spans

end TextSanitizer

/-! Spec-side definitions for the refinement claims, written from the
words of the spec (not from the source), to be compared with the embedded
source functions. -/

/-- Number of spans classified INVISIBLE. -/
def invisibleCount (spans : List TextSpan) : ℕ :=
  (spans.filter (fun s => s.visibility_status = some .INVISIBLE)).length

/-- Number of spans classified SUSPICIOUS. -/
def suspiciousCount (spans : List TextSpan) : ℕ :=
  (spans.filter (fun s => s.visibility_status = some .SUSPICIOUS)).length

/-- Risk-level decision table as the spec words it: first match wins,
CRITICAL on injection with invisible text, HIGH on invisible_count ≥ 3 ×
invisible_span_threshold or injection alone, MEDIUM on invisible_count ≥
invisible_span_threshold or suspicious_count ≥ 2 ×
suspicious_span_threshold, LOW on suspicious_count ≥
suspicious_span_threshold, else SAFE. -/
def riskLevelSpec (cfg : RiskConfig) (invisible_count suspicious_count : ℕ)
    (injection : Bool) : RiskLevel :=
  if injection = true ∧ invisible_count > 0 then .CRITICAL
  else if invisible_count ≥ 3 * cfg.invisible_threshold ∨
      injection = true then .HIGH
  else if invisible_count ≥ cfg.invisible_threshold ∨
      suspicious_count ≥ 2 * cfg.suspicious_threshold then .MEDIUM
  else if suspicious_count ≥ cfg.suspicious_threshold then .LOW
  else .SAFE

/-- Reconstruction as the spec words it: stable-sort the retained spans by
(page_number, bbox.y0, bbox.x0), then join their text with single
spaces. -/
def specReconstructText (spans : List TextSpan) : String :=
  String.intercalate " " ((TextSanitizer.sortSpans spans).map (·.text))

/-- Ordinal rank of a risk level: SAFE < LOW < MEDIUM < HIGH < CRITICAL. -/
def riskRank : RiskLevel → ℕ
  | .SAFE => 0
  | .LOW => 1
  | .MEDIUM => 2
  | .HIGH => 3
  | .CRITICAL => 4

/-- Helper: the source decision table agrees with the decision
table of the spec for every configuration and every input. -/
theorem calculate_risk_level_eq_spec (cfg : RiskConfig)
    (inv susp total : ℕ) (pi : Bool) :
    RiskAggregator.calculate_risk_level cfg inv susp total pi =
      riskLevelSpec cfg inv susp pi := by
  cases pi <;>
    simp only [RiskAggregator.calculate_risk_level, riskLevelSpec] <;>
    split_ifs <;> simp_all <;> omega

/-- C1: RiskAggregator.analyze assigns the document risk level by the
five-rule priority table of the spec over the invisible count, the suspicious
count and the computed injection flag, for every configuration (the
defaults included) and every span list. -/
theorem C1_risk_level_decision_table (cfg : RiskConfig)
    (patterns : List InjectionPattern) (spans : List TextSpan) :
    (RiskAggregator.analyze cfg patterns spans).risk_level =
      riskLevelSpec cfg (invisibleCount spans) (suspiciousCount spans)
        ((RiskAggregator.analyze cfg patterns
          spans).prompt_injection_detected) :=
  calculate_risk_level_eq_spec cfg (invisibleCount spans)
    (suspiciousCount spans) spans.length _

/-- C8: the risk level is monotone in the invisible span count: with the
suspicious count, total count and injection flag fixed, a larger invisible
count never yields a lower-ranked risk level. -/
theorem C8_risk_monotone_in_invisible (cfg : RiskConfig)
    (susp total : ℕ) (pi : Bool) (inv inv2 : ℕ) (h : inv ≤ inv2) :
    riskRank (RiskAggregator.calculate_risk_level cfg inv susp total pi) ≤
      riskRank (RiskAggregator.calculate_risk_level cfg inv2 susp total
        pi) := by
  cases pi <;>
    simp only [RiskAggregator.calculate_risk_level, Bool.false_eq_true,
      false_and, if_false, true_and, eq_self_iff_true, if_true] <;>
    split_ifs <;> simp only [riskRank] <;> omega

/-- Helper: a span with both colors present passes the metadata check. -/
theorem has_required_metadata_eq_true {span : TextSpan}
    (h1 : span.font_color ≠ none) (h2 : span.background_color ≠ none) :
    VisibilityAnalyzer.has_required_metadata span = true := by
  simp [VisibilityAnalyzer.has_required_metadata,
    Option.isSome_iff_ne_none, h1, h2]

/-- C5: VisibilityAnalyzer.analyze returns UNKNOWN exactly when
font_color or background_color is missing; equivalently, with both colors
present the result is one of VISIBLE, SUSPICIOUS, INVISIBLE. -/
theorem C5_unknown_iff_missing_colors (cr : RGB → RGB → ℚ)
    (cfg : VisibilityConfig) (span : TextSpan) (pw ph : ℚ) :
    VisibilityAnalyzer.analyze cr cfg span pw ph = .UNKNOWN ↔
      (span.font_color = none ∨ span.background_color = none) := by
  rcases hfc : span.font_color with _ | fg <;>
    rcases hbc : span.background_color with _ | bg <;>
    simp only [VisibilityAnalyzer.analyze,
      VisibilityAnalyzer.has_required_metadata, hfc, hbc, Option.isSome,
      Bool.false_and, Bool.true_and, Bool.and_self, Bool.false_eq_true,
      eq_self_iff_true, if_true, if_false] <;>
    (try split_ifs) <;> simp_all

/-- C6: worst signal wins. With both colors present, analyze returns
INVISIBLE iff a sub-check yields INVISIBLE; failing that, SUSPICIOUS iff a
sub-check yields SUSPICIOUS; failing both, VISIBLE. -/
theorem C6_worst_signal_wins (cr : RGB → RGB → ℚ)
    (cfg : VisibilityConfig) (span : TextSpan) (pw ph : ℚ)
    (h1 : span.font_color ≠ none) (h2 : span.background_color ≠ none) :
    (VisibilityAnalyzer.analyze cr cfg span pw ph = .INVISIBLE ↔
      (VisibilityAnalyzer.check_contrast cr cfg span = .INVISIBLE ∨
       VisibilityAnalyzer.check_font_size cfg span = .INVISIBLE ∨
       VisibilityAnalyzer.check_bounding_box cfg span pw ph =
         .INVISIBLE)) ∧
    (¬ (VisibilityAnalyzer.check_contrast cr cfg span = .INVISIBLE ∨
        VisibilityAnalyzer.check_font_size cfg span = .INVISIBLE ∨
        VisibilityAnalyzer.check_bounding_box cfg span pw ph =
          .INVISIBLE) →
      (VisibilityAnalyzer.analyze cr cfg span pw ph = .SUSPICIOUS ↔
        (VisibilityAnalyzer.check_contrast cr cfg span = .SUSPICIOUS ∨
         VisibilityAnalyzer.check_font_size cfg span = .SUSPICIOUS ∨
         VisibilityAnalyzer.check_bounding_box cfg span pw ph =
           .SUSPICIOUS))) ∧
    (¬ (VisibilityAnalyzer.check_contrast cr cfg span = .INVISIBLE ∨
        VisibilityAnalyzer.check_font_size cfg span = .INVISIBLE ∨
        VisibilityAnalyzer.check_bounding_box cfg span pw ph =
          .INVISIBLE) →
     ¬ (VisibilityAnalyzer.check_contrast cr cfg span = .SUSPICIOUS ∨
        VisibilityAnalyzer.check_font_size cfg span = .SUSPICIOUS ∨
        VisibilityAnalyzer.check_bounding_box cfg span pw ph =
          .SUSPICIOUS) →
      VisibilityAnalyzer.analyze cr cfg span pw ph = .VISIBLE) := by
  have hm := has_required_metadata_eq_true h1 h2
  simp only [VisibilityAnalyzer.analyze, hm, eq_self_iff_true, if_true]
  split_ifs <;> simp_all

/-- C6 witness: worst-signal-wins applied to a concrete span whose only
hiding signal is a zero-area bounding box. -/
theorem C6_witness :
    VisibilityAnalyzer.analyze (fun _ _ => 21) defaultVisibilityConfig
      ⟨"w6", 1, (0, 0, 0, 5), some 12, some (0, 0, 0),
        some (255, 255, 255), none, none⟩ 612 792 = .INVISIBLE :=
  (C6_worst_signal_wins (fun _ _ => 21) defaultVisibilityConfig
    ⟨"w6", 1, (0, 0, 0, 5), some 12, some (0, 0, 0),
      some (255, 255, 255), none, none⟩ 612 792 (by decide)
    (by decide)).1.mpr (Or.inr (Or.inr (by
      simp [VisibilityAnalyzer.check_bounding_box,
        defaultVisibilityConfig, TextSpan.x0, TextSpan.x1, TextSpan.y0,
        TextSpan.y1])))

/-- C7: with the default thresholds, boundary values fall into the less
severe bucket: contrast exactly 1.5 is SUSPICIOUS (not INVISIBLE),
contrast exactly 3.0 is SUSPICIOUS, contrast exactly 4.5 is VISIBLE; font
size exactly 1.0 is SUSPICIOUS (not INVISIBLE), exactly 4.0 is SUSPICIOUS,
exactly 8.0 is VISIBLE. -/
theorem C7_strict_threshold_boundaries (cr : RGB → RGB → ℚ)
    (fg bg : RGB) (span : TextSpan)
    (hfc : span.font_color = some fg)
    (hbc : span.background_color = some bg) :
    (cr fg bg = 3/2 →
      VisibilityAnalyzer.check_contrast cr defaultVisibilityConfig span =
        .SUSPICIOUS) ∧
    (cr fg bg = 3 →
      VisibilityAnalyzer.check_contrast cr defaultVisibilityConfig span =
        .SUSPICIOUS) ∧
    (cr fg bg = 9/2 →
      VisibilityAnalyzer.check_contrast cr defaultVisibilityConfig span =
        .VISIBLE) ∧
    (span.font_size = some 1 →
      VisibilityAnalyzer.check_font_size defaultVisibilityConfig span =
        .SUSPICIOUS) ∧
    (span.font_size = some 4 →
      VisibilityAnalyzer.check_font_size defaultVisibilityConfig span =
        .SUSPICIOUS) ∧
    (span.font_size = some 8 →
      VisibilityAnalyzer.check_font_size defaultVisibilityConfig span =
        .VISIBLE) := by
  refine ⟨fun h => ?_, fun h => ?_, fun h => ?_, fun h => ?_,
    fun h => ?_, fun h => ?_⟩ <;>
    norm_num [VisibilityAnalyzer.check_contrast,
      VisibilityAnalyzer.check_font_size, defaultVisibilityConfig, hfc,
      hbc, h]

/-- C7 witness: the boundary rule applied to a concrete span whose
contrast is exactly 1.5. -/
theorem C7_witness :
    VisibilityAnalyzer.check_contrast (fun _ _ => 3/2)
      defaultVisibilityConfig
      ⟨"w7", 1, (0, 0, 10, 5), some 1, some (0, 0, 0),
        some (255, 255, 255), none, none⟩ = .SUSPICIOUS :=
  (C7_strict_threshold_boundaries (fun _ _ => 3/2) (0, 0, 0)
    (255, 255, 255)
    ⟨"w7", 1, (0, 0, 10, 5), some 1, some (0, 0, 0),
      some (255, 255, 255), none, none⟩ rfl rfl).1 rfl

/-- Concrete counterexample span for C2: zero-width bounding box but no
font color recorded. -/
def C2span : TextSpan :=
  ⟨"hidden", 1, (0, 0, 0, 5), some 12, none, some (255, 255, 255),
    none, none⟩

/-- C2 counterexample: with the zero-area check enabled (default
configuration) and a zero-width bbox, analyze returns UNKNOWN — not
INVISIBLE — when font_color is absent, because the metadata check runs
first. -/
theorem C2_counterexample :
    defaultVisibilityConfig.check_zero_area = true ∧
    C2span.x1 - C2span.x0 ≤ 0 ∧
    VisibilityAnalyzer.analyze (fun _ _ => 21) defaultVisibilityConfig
      C2span 612 792 = .UNKNOWN ∧
    ¬ VisibilityAnalyzer.analyze (fun _ _ => 21) defaultVisibilityConfig
      C2span 612 792 = .INVISIBLE := by
  refine ⟨rfl, by simp [C2span, TextSpan.x0, TextSpan.x1], rfl,
    by decide⟩

/-- C2 amended: with the zero-area check enabled and both colors present,
a span whose bbox has width ≤ 0 or height ≤ 0 is classified INVISIBLE,
regardless of the color values, the font size and the page geometry. -/
theorem C2_zero_area_invisible (cr : RGB → RGB → ℚ)
    (cfg : VisibilityConfig) (span : TextSpan) (pw ph : ℚ)
    (hz : cfg.check_zero_area = true)
    (h1 : span.font_color ≠ none) (h2 : span.background_color ≠ none)
    (hbox : span.x1 - span.x0 ≤ 0 ∨ span.y1 - span.y0 ≤ 0) :
    VisibilityAnalyzer.analyze cr cfg span pw ph = .INVISIBLE := by
  have hm := has_required_metadata_eq_true h1 h2
  have hbb : VisibilityAnalyzer.check_bounding_box cfg span pw ph =
      .INVISIBLE := by
    unfold VisibilityAnalyzer.check_bounding_box
    exact if_pos ⟨hz, hbox⟩
  simp only [VisibilityAnalyzer.analyze, hm, eq_self_iff_true, if_true]
  split_ifs <;> simp_all

/-- C2 witness: the amended zero-area rule applied to a concrete span with
both colors present. -/
theorem C2_witness :
    VisibilityAnalyzer.analyze (fun _ _ => 21) defaultVisibilityConfig
      ⟨"w2", 1, (3, 0, 3, 5), some 12, some (0, 0, 0),
        some (255, 255, 255), none, none⟩ 612 792 = .INVISIBLE :=
  C2_zero_area_invisible (fun _ _ => 21) defaultVisibilityConfig
    ⟨"w2", 1, (3, 0, 3, 5), some 12, some (0, 0, 0),
      some (255, 255, 255), none, none⟩ 612 792 rfl (by decide)
    (by decide) (Or.inl (by simp [TextSpan.x0, TextSpan.x1]))

/-- C8 witness: monotonicity applied at a concrete pair of counts. -/
theorem C8_witness :
    riskRank (RiskAggregator.calculate_risk_level defaultRiskConfig 0 0 0
      true) ≤
    riskRank (RiskAggregator.calculate_risk_level defaultRiskConfig 2 0 0
      true) :=
  C8_risk_monotone_in_invisible defaultRiskConfig 0 0 true 0 2
    (by decide)

/-- C4: prompt-injection matching in RiskAggregator.analyze scans exactly
the INVISIBLE/SUSPICIOUS spans: a substring is reported iff some pattern
matches the lower-cased text of such a span; the reported list is sorted
and duplicate-free; and the detected flag is set iff the list is
non-empty. -/
theorem C4_injection_scan (cfg : RiskConfig)
    (patterns : List InjectionPattern) (spans : List TextSpan)
    (hchk : cfg.check_hidden_instructions = true) :
    (∀ m, m ∈ (RiskAggregator.analyze cfg patterns
        spans).prompt_injection_patterns ↔
      ∃ s ∈ spans,
        (s.visibility_status = some .INVISIBLE ∨
         s.visibility_status = some .SUSPICIOUS) ∧
        ∃ p ∈ patterns, p s.text.toLower = some m) ∧
    ((RiskAggregator.analyze cfg patterns
      spans).prompt_injection_patterns).Sorted (· ≤ ·) ∧
    ((RiskAggregator.analyze cfg patterns
      spans).prompt_injection_patterns).Nodup ∧
    ((RiskAggregator.analyze cfg patterns
        spans).prompt_injection_detected = true ↔
      (RiskAggregator.analyze cfg patterns
        spans).prompt_injection_patterns ≠ []) := by
  have key : (RiskAggregator.analyze cfg patterns
      spans).prompt_injection_patterns =
      RiskAggregator.sortStrings ((RiskAggregator.collectMatches patterns
        (RiskAggregator.problemSpans spans)).dedup) := by
    simp [RiskAggregator.analyze, RiskAggregator.detect_prompt_injection,
      hchk]
  have key2 : (RiskAggregator.analyze cfg patterns
      spans).prompt_injection_detected =
      decide (0 < ((RiskAggregator.collectMatches patterns
        (RiskAggregator.problemSpans spans)).dedup).length) := by
    simp [RiskAggregator.analyze, RiskAggregator.detect_prompt_injection,
      hchk]
  refine ⟨fun m => ?_, ?_, ?_, ?_⟩
  · rw [key]
    simp only [RiskAggregator.sortStrings, List.mem_insertionSort,
      List.mem_dedup, RiskAggregator.collectMatches, List.mem_flatten,
      List.mem_map, List.mem_filterMap, RiskAggregator.problemSpans,
      List.mem_filter, decide_eq_true_iff, exists_exists_and_eq_and]
    aesop
  · rw [key]
    exact List.sorted_insertionSort _ _
  · rw [key]
    exact (List.perm_insertionSort _ _).symm.nodup
      (List.nodup_dedup _)
  · rw [key, key2]
    simp only [decide_eq_true_iff, RiskAggregator.sortStrings,
      ← List.length_pos]
    rw [List.length_insertionSort]

/-- C4 witness: the detection flag/nonempty-list equivalence at a concrete
input (no patterns, no spans). -/
theorem C4_witness :
    (RiskAggregator.analyze defaultRiskConfig []
        []).prompt_injection_detected = true ↔
      (RiskAggregator.analyze defaultRiskConfig []
        []).prompt_injection_patterns ≠ [] :=
  (C4_injection_scan defaultRiskConfig [] [] rfl).2.2.2

/-- Helper: filtering twice with the same predicate is the same as
filtering once. -/
theorem filter_self_idem {α : Type} (p : α → Bool) (l : List α) :
    (l.filter p).filter p = l.filter p := by
  induction l with
  | nil => rfl
  | cons a t ih => by_cases h : p a <;> simp [h, ih]

/-- Helper: the spans retained by a STRIP pass are retained again by a
second STRIP pass with the same configuration. -/
theorem stripRetained_idem (cfg : SanitizationConfig)
    (spans : List TextSpan) :
    TextSanitizer.stripRetained cfg (TextSanitizer.stripRetained cfg
      spans) = TextSanitizer.stripRetained cfg spans :=
  filter_self_idem _ spans

/-- Helper: a second STRIP pass over the retained spans removes
nothing. -/
theorem stripRemoved_stripRetained (cfg : SanitizationConfig)
    (spans : List TextSpan) :
    TextSanitizer.stripRemoved cfg (TextSanitizer.stripRetained cfg
      spans) = [] := by
  rw [TextSanitizer.stripRemoved, List.filter_eq_nil_iff]
  intro a ha
  rw [TextSanitizer.stripRetained, List.mem_filter] at ha
  have h2 := ha.2
  simp only [decide_eq_true_iff] at h2 ⊢
  tauto

/-- Helper: the source reconstruction equals the spec-worded
reconstruction (stable sort by (page_number, y0, x0), join with single
spaces). -/
theorem reconstruct_text_eq_spec (l : List TextSpan) :
    TextSanitizer.reconstruct_text l = specReconstructText l := by
  by_cases h : l = []
  · rw [TextSanitizer.reconstruct_text, if_pos h, h]
    rfl
  · rw [TextSanitizer.reconstruct_text, if_neg h]
    rfl

/-- C9: STRIP is idempotent: sanitizing the spans retained by a first
STRIP pass again with STRIP (same configuration) removes nothing further
and retains the same spans. -/
theorem C9_strip_idempotent (cfg : SanitizationConfig)
    (spans : List TextSpan) :
    (TextSanitizer.sanitize cfg (TextSanitizer.stripRetained cfg spans)
        (some .STRIP) none).removed_count = 0 ∧
    (TextSanitizer.sanitize cfg (TextSanitizer.stripRetained cfg spans)
        (some .STRIP) none).sanitized_span_count =
      (TextSanitizer.stripRetained cfg spans).length ∧
    TextSanitizer.stripRetained cfg (TextSanitizer.stripRetained cfg
      spans) = TextSanitizer.stripRetained cfg spans := by
  refine ⟨?_, ?_, stripRetained_idem cfg spans⟩
  · show (TextSanitizer.stripRemoved cfg (TextSanitizer.stripRetained cfg
      spans)).length = 0
    rw [stripRemoved_stripRetained]
    rfl
  · show (TextSanitizer.stripRetained cfg (TextSanitizer.stripRetained cfg
      spans)).length = _
    rw [stripRetained_idem]

/-- C3 counterexample span: a VISIBLE span on page 2. -/
def C3spanA : TextSpan :=
  ⟨"alpha", 2, (0, 0, 10, 10), none, none, none, some .VISIBLE, none⟩

/-- C3 counterexample span: a VISIBLE span on page 1, listed second. -/
def C3spanB : TextSpan :=
  ⟨"beta", 1, (0, 0, 10, 10), none, none, none, some .VISIBLE, none⟩

/-- C3 counterexample: under the FLAG strategy, sanitize joins the
texts of the retained spans in original span order; on two out-of-order visible
spans its safe_text differs from the sorted reconstruction the spec mandates of the
retained spans. -/
theorem C3_counterexample :
    (TextSanitizer.sanitize defaultSanitizationConfig [C3spanA, C3spanB]
        (some .FLAG) none).safe_text ≠
      specReconstructText ((TextSanitizer.flagProcessed
        [C3spanA, C3spanB]).map (·.1)) := by
  decide

/-- C3 amended: STRIP and PRESERVE build safe_text by stable-sorting the
retained spans by (page_number, bbox.y0, bbox.x0) and joining their text
with single spaces; FLAG instead joins the retained span texts (possibly
flag-marked) with single spaces in original span order, without
sorting. -/
theorem C3_reconstruction_per_strategy (cfg : SanitizationConfig)
    (spans : List TextSpan) (rl : Option RiskLevel) :
    (TextSanitizer.sanitize cfg spans (some .STRIP) rl).safe_text =
      specReconstructText (TextSanitizer.stripRetained cfg spans) ∧
    (TextSanitizer.sanitize cfg spans (some .PRESERVE) rl).safe_text =
      specReconstructText spans ∧
    (TextSanitizer.sanitize cfg spans (some .FLAG) rl).safe_text =
      String.intercalate " " (TextSanitizer.flagParts cfg spans) :=
  ⟨reconstruct_text_eq_spec _, reconstruct_text_eq_spec _, rfl⟩

/-- C10: spans with UNKNOWN or unset visibility are retained by both
STRIP and FLAG: never removed, never flagged, their text joined
unmodified into safe_text. -/
theorem C10_unknown_spans_retained (cfg : SanitizationConfig)
    (spans : List TextSpan) (s : TextSpan) (hmem : s ∈ spans)
    (hu : s.visibility_status = none ∨
      s.visibility_status = some .UNKNOWN) :
    s ∈ TextSanitizer.stripRetained cfg spans ∧
    s ∉ TextSanitizer.stripRemoved cfg spans ∧
    s.text ∈ (TextSanitizer.sortSpans (TextSanitizer.stripRetained cfg
      spans)).map (·.text) ∧
    (TextSanitizer.sanitize cfg spans (some .STRIP) none).safe_text =
      String.intercalate " " ((TextSanitizer.sortSpans
        (TextSanitizer.stripRetained cfg spans)).map (·.text)) ∧
    (s, false) ∈ TextSanitizer.flagProcessed spans ∧
    (s, true) ∉ TextSanitizer.flagProcessed spans ∧
    s.text ∈ TextSanitizer.flagParts cfg spans ∧
    (TextSanitizer.sanitize cfg spans (some .FLAG) none).safe_text =
      String.intercalate " " (TextSanitizer.flagParts cfg spans) := by
  have hret : s ∈ TextSanitizer.stripRetained cfg spans := by
    rw [TextSanitizer.stripRetained, List.mem_filter]
    rcases hu with hu | hu <;> simp [hu, hmem]
  have hproc : (s, false) ∈ TextSanitizer.flagProcessed spans := by
    rw [TextSanitizer.flagProcessed, List.mem_map]
    refine ⟨s, ?_, ?_⟩
    · rw [List.mem_filter]
      rcases hu with hu | hu <;> simp [hu, hmem]
    · rcases hu with hu | hu <;> simp [hu]
  refine ⟨hret, ?_, ?_, reconstruct_text_eq_spec _, hproc, ?_, ?_, rfl⟩
  · rw [TextSanitizer.stripRemoved, List.mem_filter]
    rcases hu with hu | hu <;> simp [hu]
  · exact List.mem_map.mpr
      ⟨s, (List.mem_insertionSort TextSanitizer.spanLE).mpr hret, rfl⟩
  · intro hbad
    rw [TextSanitizer.flagProcessed, List.mem_map] at hbad
    obtain ⟨x, _, heq⟩ := hbad
    have hx : x = s := congrArg Prod.fst heq
    have hflag := congrArg Prod.snd heq
    rw [hx] at hflag
    rcases hu with hu | hu <;> simp [hu] at hflag
  · exact List.mem_map.mpr ⟨(s, false), hproc, rfl⟩

/-- C10 witness: a concrete UNKNOWN span is retained, unflagged, and its
text survives both strategies. -/
theorem C10_witness :
    (⟨"u", 1, (0, 0, 1, 1), none, none, none, some .UNKNOWN, none⟩ :
        TextSpan) ∈
      TextSanitizer.stripRetained defaultSanitizationConfig
        [⟨"u", 1, (0, 0, 1, 1), none, none, none, some .UNKNOWN, none⟩] :=
  (C10_unknown_spans_retained defaultSanitizationConfig
    [⟨"u", 1, (0, 0, 1, 1), none, none, none, some .UNKNOWN, none⟩]
    ⟨"u", 1, (0, 0, 1, 1), none, none, none, some .UNKNOWN, none⟩
    (List.mem_singleton.mpr rfl) (Or.inr rfl)).1

end SpyText
